import Mathlib

/-!
Shallow embedding of the core of the `aniwrap` library (a typed client for a
media-catalog API): the route builder (`aniwrap/models/route.py`), the result
container (`aniwrap/result.py`), the enum conversion helpers
(`aniwrap/enums/base.py` with the concrete vocabularies of `aniwrap/enums/`),
and the response mapper (`aniwrap/serializer.py`), together with theorems
settling the specification claims about them.

Raw JSON-decoded Python values are modelled by the inductive type `Json`
(`Json.null` is Python `None`); a decoded JSON object (a Python `dict`) is a
`JDict`, an association list with first-match lookup.  Python objects built
field-by-field through `setattr` (the `attrs` models are declared with
`init=False`, so a freshly constructed model has every slot unset) are
modelled as finite maps `String → Option Json` where `none` means "slot never
written" and `some Json.null` means "written with Python None".

External parsing routines (`datetime.strptime`, `datetime.fromisoformat`,
`time.strptime`) are abstracted by their inputs: the embedding records which
format was selected and which string was handed over, which is exactly what
the claims about the mapper observe.  Payload values that violate the wire
shape contract (e.g. a number where a mapping is expected) make the Python
code raise `TypeError`/`AttributeError`; the specification (§7,
"ShapeViolation") puts those out of the mapper's scope, and the embedding
totalizes them with inert defaults, which no claim exercises.
-/

/-- A JSON-decoded Python value: `null` is Python `None`. -/
inductive Json where
  | null : Json
  | str : String → Json
  | int : Int → Json
  | bool : Bool → Json
  | obj : List (String × Json) → Json
  | arr : List Json → Json

/-- A decoded JSON object / Python `dict`, as an association list
(first binding wins, matching a `dict` whose keys are unique). -/
abbrev JDict := List (String × Json)

/-- First-match lookup in a decoded object. -/
def jLookup : JDict → String → Option Json
  | [], _ => none
  | (k, v) :: rest, key => if k = key then some v else jLookup rest key

/-- Python `data.get(key)`: the stored value, or `None` when the key is missing. -/
def pyGet (d : JDict) (k : String) : Json :=
  (jLookup d k).getD Json.null

/-- Python `data.get(key, default)`: the stored value, or `default` when the key
is missing (a stored `None` is returned as-is, not replaced by the default). -/
def pyGetD (d : JDict) (k : String) (default : Json) : Json :=
  (jLookup d k).getD default

/-- Is this value Python `None`? (`value is None`). -/
def Json.isNull : Json → Bool
  | .null => true
  | _ => false

/-- View a nested payload value as a mapping, for the `.get` chains the mapper
performs on sub-objects.  A non-mapping here is a transport-contract violation
(spec §7 ShapeViolation, out of the mapper's scope); it is totalized to the
empty mapping. -/
def Json.asDict : Json → JDict
  | .obj fields => fields
  | _ => []

/-- Python `value.get(key)` on a nested payload value. -/
def Json.get (j : Json) (k : String) : Json :=
  pyGet j.asDict k

/-- Python iteration over a payload value, as done by the mapper's list
comprehensions: a list yields its elements, a dict yields its keys (this is
why `data.get("data", {})` and `data.get("serialization", {})` iterate to
nothing when the default kicks in).  Iterating any other value raises in
Python (shape violation, out of scope); totalized to the empty iteration. -/
def Json.pyIter : Json → List Json
  | .arr elems => elems
  | .obj fields => fields.map (fun kv => Json.str kv.fst)
  | _ => []

/-- Python `==` between an enum member's wire value (always a string or a small
integer) and a payload value.  Python `bool` is an `int` subclass, so
`True == 1` and `False == 0`. -/
def pyEq : Json → Json → Bool
  | .str a, .str b => a = b
  | .int a, .int b => a = b
  | .bool a, .bool b => a = b
  | .bool a, .int b => (if a then (1 : Int) else 0) = b
  | .int a, .bool b => a = (if b then (1 : Int) else 0)
  | .null, .null => true
  | _, _ => false

/-- The attribute map of a Python object assembled through `setattr`:
`none` is a slot that was never written (the `attrs` models here use
`@attrs.define(init=False)`, so construction writes nothing), `some v` a slot
holding the payload value `v` (`some Json.null` = written with Python None). -/
def PyObj := String → Option Json

/-- Python `setattr(model, k, v)`. -/
def setattr (m : PyObj) (k : String) (v : Json) : PyObj :=
  fun a => if a = k then some v else m a

/-- Embeds `Serializer._set_attrs(model, data, *attrs)`: for each listed
attribute, `setattr(model, attr, data[attr])` when `data.get(attr) is not
None`, else `setattr(model, attr, None)` — but the whole loop is guarded by
`if data:`, so an empty payload writes nothing at all. -/
def set_attrs (model : PyObj) (data : JDict) (attrs : List String) : PyObj :=
  if data.isEmpty then model
  else
    attrs.foldl
      (fun m attr =>
        if (pyGet data attr).isNull = false then setattr m attr (pyGet data attr)
        else setattr m attr Json.null)
      model

/-- A vocabulary category (one `BaseEnum` subclass of `aniwrap/enums/`):
its Python class name and its members as (member name, wire value) pairs. -/
structure EnumCategory where
  name : String
  members : List (String × Json)

/-- Embeds `BaseEnum.from_str` (which is just `cls(value)`): find the member
whose wire value equals `value` under Python `==`; an unmatched value makes
the `Enum` constructor raise `ValueError`, modelled as the error branch. -/
def from_str (c : EnumCategory) (v : Json) : Except String String :=
  match c.members.find? (fun m => pyEq m.snd v) with
  | some m => Except.ok m.fst
  | none => Except.error ("ValueError: invalid " ++ c.name)

/-- Embeds `BaseEnum.try_from_str`: `cls(value)` wrapped in
`try ... except ValueError: return None`. -/
def try_from_str (c : EnumCategory) (v : Json) : Option String :=
  match from_str c v with
  | Except.ok s => some s
  | Except.error _ => none

/-- `AnimeStatus` (aniwrap/enums/anime.py). -/
def AnimeStatus : EnumCategory :=
  ⟨"AnimeStatus",
    [("Airing", .str "currently_airing"), ("Finished", .str "finished_airing"),
     ("NotAired", .str "not_yet_aired")]⟩

/-- `AnimeType` (aniwrap/enums/anime.py). -/
def AnimeType : EnumCategory :=
  ⟨"AnimeType",
    [("Movie", .str "movie"), ("Ona", .str "ona"), ("Ova", .str "ova"),
     ("Special", .str "special"), ("Tv", .str "tv"), ("Unknown", .str "unknown")]⟩

/-- `AnimeSeason` (aniwrap/enums/anime.py). -/
def AnimeSeason : EnumCategory :=
  ⟨"AnimeSeason",
    [("Winter", .str "winter"), ("Spring", .str "spring"),
     ("Summer", .str "summer"), ("Fall", .str "fall")]⟩

/-- `AnimeRankingType` (aniwrap/enums/anime.py). -/
def AnimeRankingType : EnumCategory :=
  ⟨"AnimeRankingType",
    [("All", .str "all"), ("Airing", .str "airing"), ("Upcoming", .str "upcoming"),
     ("Tv", .str "tv"), ("Ova", .str "ova"), ("Movie", .str "movie"),
     ("Special", .str "special"), ("ByPopularity", .str "bypopularity"),
     ("Favorite", .str "favorite")]⟩

/-- `AnimeSortType` (aniwrap/enums/anime.py). -/
def AnimeSortType : EnumCategory :=
  ⟨"AnimeSortType",
    [("AnimeScore", .str "anime_score"),
     ("NumberOfUsers", .str "anime_num_list_users")]⟩

/-- `NSFWLevel` (aniwrap/enums/common.py). -/
def NSFWLevel : EnumCategory :=
  ⟨"NSFWLevel", [("Black", .str "black"), ("Gray", .str "gray"), ("White", .str "white")]⟩

/-- `MangaRankingType` (aniwrap/enums/manga.py). -/
def MangaRankingType : EnumCategory :=
  ⟨"MangaRankingType",
    [("All", .str "all"), ("Manga", .str "manga"), ("Novels", .str "novels"),
     ("Oneshots", .str "oneshots"), ("Doujin", .str "doujin"),
     ("Manhwa", .str "manhwa"), ("Manhua", .str "manhua"),
     ("ByPopularity", .str "bypopularity"), ("Favorite", .str "favorite")]⟩

/-- `MangaType` (aniwrap/enums/manga.py). -/
def MangaType : EnumCategory :=
  ⟨"MangaType",
    [("Doujinshi", .str "doujinshi"), ("LightNovel", .str "light_novel"),
     ("Manga", .str "manga"), ("Manhua", .str "manhua"), ("Manhwa", .str "manhwa"),
     ("Novel", .str "novel"), ("Oel", .str "oel"), ("OneShot", .str "one_shot"),
     ("Unknown", .str "unknown")]⟩

/-- `MangaStatus` (aniwrap/enums/manga.py). -/
def MangaStatus : EnumCategory :=
  ⟨"MangaStatus",
    [("Finished", .str "finished"), ("NotPublished", .str "not_yet_published"),
     ("Publishing", .str "currently_publishing"), ("OnHiatus", .str "on_hiatus"),
     ("Discontinued", .str "discontinued")]⟩

/-- `AnimeListSortType` (aniwrap/enums/user.py). -/
def AnimeListSortType : EnumCategory :=
  ⟨"AnimeListSortType",
    [("ListScore", .str "list_score"), ("ListUpdatedAt", .str "list_updated_at"),
     ("AnimeTitle", .str "anime_title"), ("AnimeStartDate", .str "anime_start_date")]⟩

/-- `AnimeWatchStatus` (aniwrap/enums/user.py). -/
def AnimeWatchStatus : EnumCategory :=
  ⟨"AnimeWatchStatus",
    [("Watching", .str "watching"), ("Completed", .str "completed"),
     ("OnHold", .str "on_hold"), ("Dropped", .str "dropped"),
     ("PlanToWatch", .str "plan_to_watch")]⟩

/-- `ListPriority` (aniwrap/enums/user.py) — integer-backed. -/
def ListPriority : EnumCategory :=
  ⟨"ListPriority", [("Low", .int 0), ("Medium", .int 1), ("High", .int 2)]⟩

/-- `AnimeRewatchValue` (aniwrap/enums/user.py) — integer-backed. -/
def AnimeRewatchValue : EnumCategory :=
  ⟨"AnimeRewatchValue",
    [("Empty", .int 0), ("VeryLow", .int 1), ("Low", .int 2), ("Medium", .int 3),
     ("High", .int 4), ("VeryHigh", .int 5)]⟩

/-- `MangaReadStatus` (aniwrap/enums/user.py). -/
def MangaReadStatus : EnumCategory :=
  ⟨"MangaReadStatus",
    [("Reading", .str "reading"), ("Completed", .str "completed"),
     ("OnHold", .str "on_hold"), ("Dropped", .str "dropped"),
     ("PlanToRead", .str "plan_to_read")]⟩

/-- `MangaListSortType` (aniwrap/enums/user.py). -/
def MangaListSortType : EnumCategory :=
  ⟨"MangaListSortType",
    [("ListScore", .str "list_score"), ("ListUpdatedAt", .str "list_updated_at"),
     ("MangaTitle", .str "manga_title"), ("MangaStartDate", .str "manga_start_date")]⟩

/-- `MangaRereadValue` (aniwrap/enums/user.py) — integer-backed. -/
def MangaRereadValue : EnumCategory :=
  ⟨"MangaRereadValue",
    [("Empty", .int 0), ("VeryLow", .int 1), ("Low", .int 2), ("Medium", .int 3),
     ("High", .int 4), ("VeryHigh", .int 5)]⟩

/-- Every vocabulary category defined under `aniwrap/enums/`. -/
def allCategories : List EnumCategory :=
  [AnimeStatus, AnimeType, AnimeSeason, AnimeRankingType, AnimeSortType,
   NSFWLevel, MangaRankingType, MangaType, MangaStatus, AnimeListSortType,
   AnimeWatchStatus, ListPriority, AnimeRewatchValue, MangaReadStatus,
   MangaListSortType, MangaRereadValue]

/-- The `strptime` format string `Serializer._date_from_str` selects. -/
inductive DateFormat where
  | ymd
  | ym
  | y
deriving Repr, DecidableEq

/-- Python `date_str.count("-")`. -/
def countDash (s : String) : Nat :=
  s.data.count '-'

/-- Embeds `Serializer._date_from_str`: pick the format by counting `"-"`
(zero dashes → `"%Y"`, one → `"%Y-%m"`, otherwise the initial `"%Y-%m-%d"`),
then `datetime.strptime(date_str, format) if date_str else None`.  The
`strptime` call itself is abstracted by the (format, input) pair handed to it;
a falsy input (`None` or the empty string) short-circuits to `None`. -/
def date_from_str (date_str : Option String) : Option (DateFormat × String) :=
  match date_str with
  | none => none
  | some s =>
    if s.isEmpty then none
    else if countDash s = 0 then some (DateFormat.y, s)
    else if countDash s = 1 then some (DateFormat.ym, s)
    else some (DateFormat.ymd, s)

/-- The `str | None` view of a payload value handed to the date parsers
(their annotated contract; any other shape would make `strptime` raise, a
shape violation out of the mapper's scope). -/
def Json.asPyStr : Json → Option String
  | .str s => some s
  | _ => none

/-- Embeds `Serializer._datetime_from_iso`:
`datetime.fromisoformat(datetime_str) if datetime_str else None`, the parse
abstracted by its input string. -/
def datetime_from_iso (j : Json) : Option String :=
  match j.asPyStr with
  | none => none
  | some s => if s.isEmpty then none else some s

/-- Embeds `Serializer._time_from_str`:
`time.strptime(time_str, "%H:%M") if time_str else None`, the parse abstracted
by its input string. -/
def time_from_str (j : Json) : Option String :=
  match j.asPyStr with
  | none => none
  | some s => if s.isEmpty then none else some s

/-- `CommonModel` (aniwrap/models/common.py): an `{id, name}` pair, holding the
raw payload values it was constructed from. -/
structure CommonModel where
  id : Json
  name : Json

/-- `OptionalPictureModel` (aniwrap/models/common.py). -/
structure OptionalPictureModel where
  medium : Json
  large : Json

/-- `RelatedMaterialNodeModel` (aniwrap/models/common.py). -/
structure RelatedMaterialNodeModel where
  id : Json
  title : Json
  main_picture : OptionalPictureModel

/-- `RelatedMaterialModel` (aniwrap/models/common.py). -/
structure RelatedMaterialModel where
  node : RelatedMaterialNodeModel
  relation_type : Json
  relation_type_formatted : Json

/-- `RecommendationModel` (aniwrap/models/common.py). -/
structure RecommendationModel where
  node : RelatedMaterialNodeModel
  num_recommendations : Json

/-- `Season` (aniwrap/models/anime.py), as the mapper constructs it. -/
structure Season where
  year : Json
  season : Option String

/-- `Broadcast` (aniwrap/models/anime.py), as the mapper constructs it. -/
structure Broadcast where
  day_of_the_week : Json
  start_time : Option String

/-- `AnimeStatisticsStatus` (aniwrap/models/anime.py), as the mapper
constructs it. -/
structure AnimeStatisticsStatus where
  watching : Json
  completed : Json
  on_hold : Json
  dropped : Json
  plan_to_watch : Json

/-- `AnimeStatistics` (aniwrap/models/anime.py), as the mapper constructs it. -/
structure AnimeStatistics where
  status : AnimeStatisticsStatus
  num_list_users : Json

/-- `Author` (aniwrap/models/manga.py): author-name node plus role, holding the
raw values the mapper reads. -/
structure Author where
  node_id : Json
  first_name : Json
  last_name : Json
  role : Json

/-- Embeds `Serializer._deserialize_genres` (also the body of
`_deserialize_studios`, which is identical): one `CommonModel` per element. -/
def deserialize_genres (data : List Json) : List CommonModel :=
  data.map (fun genre => ⟨genre.get "id", genre.get "name"⟩)

/-- Embeds `Serializer._deserialize_studios`. -/
def deserialize_studios (data : List Json) : List CommonModel :=
  data.map (fun genre => ⟨genre.get "id", genre.get "name"⟩)

/-- Embeds `Serializer._deserialize_pictures`. -/
def deserialize_pictures (data : List Json) : List OptionalPictureModel :=
  data.map (fun picture => ⟨picture.get "medium", picture.get "large"⟩)

/-- Embeds `Serializer._deserialize_related_material`: each element nests a
reference node built from `element.get("node", {})` (with
`element.get("node", {}).get("main_picture", {})` for the picture) plus the
sibling relation-type scalars. -/
def deserialize_related_material (data : List Json) : List RelatedMaterialModel :=
  data.map (fun rel =>
    ⟨⟨(pyGetD rel.asDict "node" (Json.obj [])).get "id",
      (pyGetD rel.asDict "node" (Json.obj [])).get "title",
      ⟨(pyGetD (pyGetD rel.asDict "node" (Json.obj [])).asDict "main_picture" (Json.obj [])).get "medium",
       (pyGetD (pyGetD rel.asDict "node" (Json.obj [])).asDict "main_picture" (Json.obj [])).get "large"⟩⟩,
     rel.get "relation_type",
     rel.get "relation_type_formatted"⟩)

/-- Embeds `Serializer._deserialize_recommendations`. -/
def deserialize_recommendations (data : List Json) : List RecommendationModel :=
  data.map (fun rec =>
    ⟨⟨(pyGetD rec.asDict "node" (Json.obj [])).get "id",
      (pyGetD rec.asDict "node" (Json.obj [])).get "title",
      ⟨(pyGetD (pyGetD rec.asDict "node" (Json.obj [])).asDict "main_picture" (Json.obj [])).get "medium",
       (pyGetD (pyGetD rec.asDict "node" (Json.obj [])).asDict "main_picture" (Json.obj [])).get "large"⟩⟩,
     rec.get "num_recommendations"⟩)

/-- Embeds `Serializer._deserialize_authors`. -/
def deserialize_authors (data : List Json) : List Author :=
  data.map (fun author =>
    ⟨(pyGetD author.asDict "node" (Json.obj [])).get "id",
     (pyGetD author.asDict "node" (Json.obj [])).get "first_name",
     (pyGetD author.asDict "node" (Json.obj [])).get "last_name",
     author.get "role"⟩)

/-- Embeds `Serializer._deserialize_manga_serialization`: one `CommonModel`
per element, from the element's `node`. -/
def deserialize_manga_serialization (data : List Json) : List CommonModel :=
  data.map (fun ser =>
    ⟨(pyGetD ser.asDict "node" (Json.obj [])).get "id",
     (pyGetD ser.asDict "node" (Json.obj [])).get "name"⟩)

/-- Embeds `Serializer._deserialize_alternative_titles`: a fresh `TitlesModel`
filled by `_set_attrs` with `"synonyms", "en", "ja"`. -/
def deserialize_alternative_titles (data : JDict) : PyObj :=
  set_attrs (fun _ => none) data ["synonyms", "en", "ja"]

/-- Embeds `Serializer._deserialize_main_picture`: a fresh `PictureModel`
filled by `_set_attrs` with `"medium", "large"`. -/
def deserialize_main_picture (data : JDict) : PyObj :=
  set_attrs (fun _ => none) data ["medium", "large"]

/-- The `Anime` record as `Serializer.deserialize_anime` populates it
(aniwrap/models/anime.py, `@attrs.define(init=False)`).  The thirteen flat
scalar fields written by the final `_set_attrs` call are grouped in
`scalars`, the very attribute map that call produces on the freshly
constructed (all-slots-unset) model. -/
structure Anime where
  main_picture : PyObj
  alternative_titles : PyObj
  genres : List CommonModel
  status : Option String
  nsfw : Option String
  start_season : Season
  broadcast : Broadcast
  studios : List CommonModel
  media_type : String
  start_date : Option (DateFormat × String)
  end_date : Option (DateFormat × String)
  created_at : Option String
  updated_at : Option String
  pictures : List OptionalPictureModel
  related_anime : List RelatedMaterialModel
  recommendations : List RecommendationModel
  statistics : AnimeStatistics
  scalars : PyObj

/-- Embeds `Serializer.deserialize_anime`, line by line.  Python `or`
on `AnimeType.try_from_str(...) or AnimeType.Unknown` keeps the member when
the permissive conversion found one (enum members are always truthy) and
falls back to `Unknown` otherwise — `Option.getD`. -/
def deserialize_anime (data : JDict) : Anime :=
  { main_picture := deserialize_main_picture (pyGetD data "main_picture" (Json.obj [])).asDict
    alternative_titles :=
      deserialize_alternative_titles (pyGetD data "alternative_titles" (Json.obj [])).asDict
    genres := deserialize_genres (pyGetD data "genres" (Json.arr [])).pyIter
    status := try_from_str AnimeStatus (pyGet data "status")
    nsfw := try_from_str NSFWLevel (pyGetD data "nsfw" (Json.str "white"))
    start_season :=
      ⟨(pyGetD data "start_season" (Json.obj [])).get "year",
       try_from_str AnimeSeason ((pyGetD data "start_season" (Json.obj [])).get "season")⟩
    broadcast :=
      ⟨(pyGetD data "broadcast" (Json.obj [])).get "day_of_the_week",
       time_from_str ((pyGetD data "broadcast" (Json.obj [])).get "start_time")⟩
    studios := deserialize_studios (pyGetD data "studios" (Json.arr [])).pyIter
    media_type := (try_from_str AnimeType (pyGet data "media_type")).getD "Unknown"
    start_date := date_from_str (pyGet data "start_date").asPyStr
    end_date := date_from_str (pyGet data "end_date").asPyStr
    created_at := datetime_from_iso (pyGet data "created_at")
    updated_at := datetime_from_iso (pyGet data "updated_at")
    pictures := deserialize_pictures (pyGetD data "pictures" (Json.arr [])).pyIter
    related_anime :=
      deserialize_related_material (pyGetD data "related_anime" (Json.arr [])).pyIter
    recommendations :=
      deserialize_recommendations (pyGetD data "recommendations" (Json.arr [])).pyIter
    statistics :=
      ⟨⟨(pyGetD (pyGetD data "statistics" (Json.obj [])).asDict "status" (Json.obj [])).get "watching",
        (pyGetD (pyGetD data "statistics" (Json.obj [])).asDict "status" (Json.obj [])).get "completed",
        (pyGetD (pyGetD data "statistics" (Json.obj [])).asDict "status" (Json.obj [])).get "on_hold",
        (pyGetD (pyGetD data "statistics" (Json.obj [])).asDict "status" (Json.obj [])).get "dropped",
        (pyGetD (pyGetD data "statistics" (Json.obj [])).asDict "status" (Json.obj [])).get "plan_to_watch"⟩,
       (pyGetD data "statistics" (Json.obj [])).get "num_list_users"⟩
    scalars :=
      set_attrs (fun _ => none) data
        ["id", "title", "synopsis", "mean", "rank", "popularity", "num_list_users",
         "num_scoring_users", "num_episodes", "source", "average_episode_duration",
         "rating", "background"] }

/-- Embeds `Serializer.deserialize_anime_results`: unwrap one `node` per
element of `data.get("data", {})` and delegate to `deserialize_anime`
(the element's `node` is fetched without a default, so a missing `node`
delegates Python `None`; modelled through `Json.asDict`). -/
def deserialize_anime_results (data : JDict) : List Anime :=
  (pyGetD data "data" (Json.obj [])).pyIter.map
    (fun element => deserialize_anime (element.get "node").asDict)

/-- The `Manga` record as `Serializer.deserialize_manga` populates it
(aniwrap/models/manga.py, `@attrs.define(init=False)`), with the eleven flat
scalar fields of its final `_set_attrs` call grouped in `scalars`. -/
structure Manga where
  nsfw : Option String
  media_type : String
  status : Option String
  main_picture : PyObj
  pictures : List OptionalPictureModel
  alternative_titles : PyObj
  genres : List CommonModel
  authors : List Author
  related_manga : List RelatedMaterialModel
  recommendations : List RecommendationModel
  serialization : List CommonModel
  start_date : Option (DateFormat × String)
  end_date : Option (DateFormat × String)
  created_at : Option String
  updated_at : Option String
  scalars : PyObj

/-- Embeds `Serializer.deserialize_manga`, line by line.  Note the
`media_type` line defaults the *lookup* to `"unknown"` before the permissive
conversion, then still `or`-defaults the member to `Unknown`. -/
def deserialize_manga (data : JDict) : Manga :=
  { nsfw := try_from_str NSFWLevel (pyGetD data "nsfw" (Json.str "white"))
    media_type :=
      (try_from_str MangaType (pyGetD data "media_type" (Json.str "unknown"))).getD "Unknown"
    status := try_from_str MangaStatus (pyGet data "status")
    main_picture := deserialize_main_picture (pyGetD data "main_picture" (Json.obj [])).asDict
    pictures := deserialize_pictures (pyGetD data "pictures" (Json.arr [])).pyIter
    alternative_titles :=
      deserialize_alternative_titles (pyGetD data "alternative_titles" (Json.obj [])).asDict
    genres := deserialize_genres (pyGetD data "genres" (Json.arr [])).pyIter
    authors := deserialize_authors (pyGetD data "authors" (Json.arr [])).pyIter
    related_manga :=
      deserialize_related_material (pyGetD data "related_manga" (Json.arr [])).pyIter
    recommendations :=
      deserialize_recommendations (pyGetD data "recommendations" (Json.arr [])).pyIter
    serialization :=
      deserialize_manga_serialization (pyGetD data "serialization" (Json.obj [])).pyIter
    start_date := date_from_str (pyGet data "start_date").asPyStr
    end_date := date_from_str (pyGet data "end_date").asPyStr
    created_at := datetime_from_iso (pyGet data "created_at")
    updated_at := datetime_from_iso (pyGet data "updated_at")
    scalars :=
      set_attrs (fun _ => none) data
        ["id", "title", "synopsis", "mean", "rank", "popularity", "num_list_users",
         "num_scoring_users", "num_volumes", "num_chapters", "background"] }

/-- Embeds `Serializer.deserialize_manga_results`. -/
def deserialize_manga_results (data : JDict) : List Manga :=
  (pyGetD data "data" (Json.obj [])).pyIter.map
    (fun element => deserialize_manga (element.get "node").asDict)

/-- The `AnimeListUpdate` record as `Serializer.deserialize_anime_list_update`
populates it (aniwrap/models/user.py, `@attrs.define(init=False)`); the seven
fields of its `_set_attrs` call are grouped in `scalars`. -/
structure AnimeListUpdate where
  priority : String
  rewatch_value : Option String
  updated_at : Option String
  scalars : PyObj

/-- Embeds `Serializer.deserialize_anime_list_update`.  The first statement is
`ListPriority.from_str(data.get("priority"))` — the STRICT conversion, whose
`ValueError` propagates out of the mapper; the embedding therefore returns
`Except`, erroring exactly when that strict conversion does. -/
def deserialize_anime_list_update (data : JDict) : Except String AnimeListUpdate :=
  match from_str ListPriority (pyGet data "priority") with
  | Except.error e => Except.error e
  | Except.ok p =>
    Except.ok
      { priority := p
        rewatch_value := try_from_str AnimeRewatchValue (pyGet data "rewatch_value")
        updated_at := datetime_from_iso (pyGet data "updated_at")
        scalars :=
          set_attrs (fun _ => none) data
            ["status", "score", "num_episodes_watched", "is_rewatching",
             "num_times_rewatched", "tags", "comments"] }

/-- The `MangaListUpdate` record as `Serializer.deserialize_manga_list_update`
populates it. -/
structure MangaListUpdate where
  priority : String
  reread_value : Option String
  updated_at : Option String
  scalars : PyObj

/-- Embeds `Serializer.deserialize_manga_list_update`; like the anime variant
it starts with the strict `ListPriority.from_str(data.get("priority"))`. -/
def deserialize_manga_list_update (data : JDict) : Except String MangaListUpdate :=
  match from_str ListPriority (pyGet data "priority") with
  | Except.error e => Except.error e
  | Except.ok p =>
    Except.ok
      { priority := p
        reread_value := try_from_str MangaRereadValue (pyGet data "reread_value")
        updated_at := datetime_from_iso (pyGet data "updated_at")
        scalars :=
          set_attrs (fun _ => none) data
            ["status", "score", "num_volumes_read", "num_chapters_read",
             "is_rereading", "num_times_reread", "tags", "comments"] }

/-- A positional argument to `Route.generate_route` (`str | int`). -/
inductive RouteArg where
  | s : String → RouteArg
  | i : Int → RouteArg

/-- Python `str(arg)` on a route argument. -/
def RouteArg.toStr : RouteArg → String
  | .s v => v
  | .i n => toString n

/-- Python `uri.replace("()", repl, 1)` on the character list: scan from the
left for the first occurrence of the two-character placeholder `()` and
replace it. -/
def replacePH1 (repl : List Char) : List Char → List Char
  | [] => []
  | [c] => [c]
  | c :: d :: rest =>
    if c = '(' ∧ d = ')' then repl ++ rest
    else c :: replacePH1 repl (d :: rest)

/-- Python `uri.count("()")`: the number of (necessarily disjoint)
placeholder occurrences, counted from the left. -/
def countPH : List Char → Nat
  | [] => 0
  | [_] => 0
  | c :: d :: rest =>
    if c = '(' ∧ d = ')' then countPH rest + 1
    else countPH (d :: rest)

/-- Does a character list stay clear of both parenthesis characters?  Used to
describe well-formed route templates (segments between placeholders) and
benign arguments. -/
def parenFreeL : List Char → Bool
  | [] => true
  | c :: cs => ((c != '(') && (c != ')')) && parenFreeL cs

/-- A route URI template in its canonical shape: parenthesis-free segments
interleaved with `()` placeholders (`interPH [s0, s1, ..., sn]` is
`s0 ++ "()" ++ s1 ++ "()" ++ ... ++ sn`, with n placeholders). -/
def interPH : List (List Char) → List Char
  | [] => []
  | [s] => s
  | s :: rest => s ++ '(' :: ')' :: interPH rest

/-- The expected substitution result: the same segments interleaved with the
stringified arguments, i-th placeholder replaced by i-th argument. -/
def fillPH : List (List Char) → List (List Char) → List Char
  | [], _ => []
  | [s], _ => s
  | s :: rest, [] => interPH (s :: rest)
  | s :: rest, a :: args => s ++ a ++ fillPH rest args

/-- String-level `uri.replace("()", repl, 1)`. -/
def strReplacePH1 (uri repl : String) : String :=
  ⟨replacePH1 repl.data uri.data⟩

/-- `Route` (aniwrap/models/route.py): method plus templated uri. -/
structure Route where
  method : String
  uri : String

/-- `GenerateRoute` (aniwrap/models/route.py).  The builder stores a
*reference* to the `Route` it was generated from (`self._route = route`), and
both its `uri` getter and setter go through that reference
(`return self.route.uri` / `self.route.uri = val`).  The `route` field below
is therefore the post-call state of that shared underlying `Route` object. -/
structure GenerateRoute where
  route : Route
  params : List (String × Json)
  data : List (String × Json)

/-- The builder's `uri` property: it reads through to the underlying
`Route`. -/
def GenerateRoute.uri (g : GenerateRoute) : String :=
  g.route.uri

/-- Embeds `Route.generate_route(*args)`: construct `GenerateRoute(self)` and
run `generated_route.uri = generated_route.uri.replace("()", str(arg), 1)`
once per argument.  Each such assignment invokes the `uri` setter, which
writes `self.route.uri` — i.e. it mutates the original `Route` in place.  The
embedding passes that mutation explicitly: the returned builder's `route`
field holds the state the original `Route` object is left in after the
call. -/
def Route.generate_route (r : Route) (args : List RouteArg) : GenerateRoute :=
  { route :=
      { method := r.method
        uri := args.foldl (fun u arg => strReplacePH1 u arg.toStr) r.uri }
    params := []
    data := [] }

/-- `Result` (aniwrap/result.py): its two concrete subclasses `Success` and
`Error`, as the tagged union of the values their constructors store. -/
inductive Result (S E : Type) where
  | Success : S → Result S E
  | Error : E → Result S E

/-- `Success.is_success` returns `True`; `Error.is_success` returns `False`. -/
def Result.is_success : Result S E → Bool
  | .Success _ => true
  | .Error _ => false

/-- `Success.is_error` returns `False`; `Error.is_error` returns `True`. -/
def Result.is_error : Result S E → Bool
  | .Success _ => false
  | .Error _ => true

/-- The `value` property: the stored value on the success branch, the literal
`None` (here `none`) on the error branch. -/
def Result.value : Result S E → Option S
  | .Success v => some v
  | .Error _ => none

/-- The `error` property: the literal `None` on the success branch, the stored
error on the error branch. -/
def Result.error : Result S E → Option E
  | .Success _ => none
  | .Error e => some e

/-- The `GET_ANIME` route constant of aniwrap/endpoints.py, with the shared
base-url prefix shortened to keep the statements readable (only the
placeholder structure matters). -/
def GET_ANIME : Route :=
  { method := "GET", uri := "anime/()" }

/-- A model with a stale value already sitting in attribute `"x"`. -/
def staleModel : PyObj :=
  fun k => if k = "x" then some (Json.str "stale") else none

/-- A minimal anime payload: exactly the fields the `Anime` model declares
without a default (id, title, main_picture, alternative_titles, start_date,
synopsis, popularity, nsfw, created_at, updated_at, media_type, status,
genres, source, rating), every declared-optional field absent. -/
def minimalAnimePayload : JDict :=
  [("id", Json.int 1), ("title", Json.str "X"),
   ("main_picture", Json.obj [("medium", Json.str "m"), ("large", Json.str "l")]),
   ("alternative_titles", Json.obj [("en", Json.str "X")]),
   ("start_date", Json.str "2017-10-03"), ("synopsis", Json.str "s"),
   ("popularity", Json.int 5), ("nsfw", Json.str "white"),
   ("created_at", Json.str "2017-10-03T00:00:00"),
   ("updated_at", Json.str "2017-10-03T00:00:00"),
   ("media_type", Json.str "tv"), ("status", Json.str "finished_airing"),
   ("genres", Json.arr []), ("source", Json.str "manga"),
   ("rating", Json.str "pg_13")]

/-- A payload key that is absent reads as Python `None`. -/
theorem pyGet_of_absent (d : JDict) (k : String) (h : jLookup d k = none) :
    pyGet d k = Json.null := by
  simp [pyGet, h]

/-- A payload key that is present reads as its stored value. -/
theorem pyGet_of_present (d : JDict) (k : String) (v : Json) (h : jLookup d k = some v) :
    pyGet d k = v := by
  simp [pyGet, h]

/-- `data.get(k, default)` returns the default exactly when the key is absent. -/
theorem pyGetD_of_absent (d : JDict) (k : String) (v : Json) (h : jLookup d k = none) :
    pyGetD d k v = v := by
  simp [pyGetD, h]

/-- If no member's wire value compares equal to `v`, the member search of the
`Enum` constructor comes up empty. -/
theorem members_find_none (c : EnumCategory) (v : Json)
    (hv : ∀ m ∈ c.members, pyEq m.snd v = false) :
    c.members.find? (fun m => pyEq m.snd v) = none := by
  rw [List.find?_eq_none]
  intro x hx
  simp [hv x hx]

/-- Permissive conversion of an out-of-vocabulary value is `None`. -/
theorem try_from_str_of_unknown (c : EnumCategory) (v : Json)
    (hv : ∀ m ∈ c.members, pyEq m.snd v = false) :
    try_from_str c v = none := by
  simp [try_from_str, from_str, members_find_none c v hv]

/-- C8: a `Success(value)` has `is_success` true, `is_error` false, `value`
equal to the given value and `error` absent; an `Error(err)` has the mirror
image; and no `Result` at all has both `value` and `error` present. -/
theorem C8_result_success_error_shape (S E : Type) (v : S) (e : E) :
    (Result.Success v : Result S E).is_success = true ∧
    (Result.Success v : Result S E).is_error = false ∧
    (Result.Success v : Result S E).value = some v ∧
    (Result.Success v : Result S E).error = none ∧
    (Result.Error e : Result S E).is_success = false ∧
    (Result.Error e : Result S E).is_error = true ∧
    (Result.Error e : Result S E).error = some e ∧
    (Result.Error e : Result S E).value = none ∧
    (∀ r : Result S E, r.value = none ∨ r.error = none) := by
  refine ⟨rfl, rfl, rfl, rfl, rfl, rfl, rfl, rfl, ?_⟩
  intro r
  cases r with
  | Success v => exact Or.inr rfl
  | Error e => exact Or.inl rfl

/-- C2: on a payload with no `priority` key (here the empty payload), both
list-update mappers hit `ListPriority.from_str(data.get("priority"))`, i.e.
`ListPriority(None)`, whose `ValueError` escapes the mapper — they do not
return a record. -/
theorem C2_list_update_raises_on_missing_priority :
    deserialize_anime_list_update [] = Except.error "ValueError: invalid ListPriority" ∧
    deserialize_manga_list_update [] = Except.error "ValueError: invalid ListPriority" :=
  ⟨rfl, rfl⟩

/-- C1: `generate_route` mutates the `Route` it is called on.  The builder's
`uri` setter writes through to the shared underlying `Route`, so after
`GET_ANIME.generate_route(1)` the original route's uri is `"anime/1"`, no
longer the template `"anime/()"`; a second call `generate_route(2)` on the
same route consequently finds no placeholder left and still yields
`"anime/1"` — repeated calls are not independent. -/
theorem C1_generate_route_mutates_route :
    (GET_ANIME.generate_route [RouteArg.i 1]).route.uri = "anime/1" ∧
    GET_ANIME.uri = "anime/()" ∧
    "anime/1" ≠ "anime/()" ∧
    ((GET_ANIME.generate_route [RouteArg.i 1]).route.generate_route [RouteArg.i 2]).uri
      = "anime/1" := by
  refine ⟨rfl, rfl, ?_, rfl⟩
  intro h
  have hlen : ("anime/1").length = ("anime/()").length := congrArg String.length h
  simp [String.length] at hlen

/-- C6: for every vocabulary category of `aniwrap/enums/` and every wire value
outside that category's fixed member set, `try_from_str` returns the absent
marker (never fails) while `from_str` on the same value fails with the
unknown-symbol (`ValueError`) error. -/
theorem C6_strict_vs_permissive_conversion (c : EnumCategory) (_hc : c ∈ allCategories)
    (v : Json) (hv : ∀ m ∈ c.members, pyEq m.snd v = false) :
    try_from_str c v = none ∧
    from_str c v = Except.error ("ValueError: invalid " ++ c.name) := by
  refine ⟨try_from_str_of_unknown c v hv, ?_⟩
  simp [from_str, members_find_none c v hv]

/-- Witness for C6 at the category `AnimeStatus` and the out-of-vocabulary
wire value `"bogus"`. -/
theorem C6_strict_vs_permissive_conversion_witness :
    try_from_str AnimeStatus (Json.str "bogus") = none ∧
    from_str AnimeStatus (Json.str "bogus") = Except.error "ValueError: invalid AnimeStatus" :=
  C6_strict_vs_permissive_conversion AnimeStatus (List.Mem.head _) (Json.str "bogus")
    (by decide)

/-- C5: date-only parsing selects the format by counting `"-"` separators —
zero separators parse as year-only, one as year-month, two as a full date —
and an absent or empty input yields an absent date rather than reaching the
parser at all. -/
theorem C5_date_format_selection :
    date_from_str none = none ∧
    date_from_str (some "") = none ∧
    ∀ s : String, s ≠ "" →
      (countDash s = 0 → date_from_str (some s) = some (DateFormat.y, s)) ∧
      (countDash s = 1 → date_from_str (some s) = some (DateFormat.ym, s)) ∧
      (countDash s = 2 → date_from_str (some s) = some (DateFormat.ymd, s)) := by
  refine ⟨rfl, rfl, ?_⟩
  intro s hs
  have hE : s.isEmpty = false := by
    cases h : s.isEmpty
    · rfl
    · exact absurd ((String.isEmpty_iff s).mp h) hs
  refine ⟨fun h0 => ?_, fun h1 => ?_, fun h2 => ?_⟩
  · simp [date_from_str, hE, h0]
  · simp [date_from_str, hE, h1]
  · simp [date_from_str, hE, h2]

/-- Witness for C5 at the three separator counts. -/
theorem C5_date_format_selection_witness :
    date_from_str (some "2017") = some (DateFormat.y, "2017") ∧
    date_from_str (some "2017-10") = some (DateFormat.ym, "2017-10") ∧
    date_from_str (some "2017-10-03") = some (DateFormat.ymd, "2017-10-03") :=
  ⟨(C5_date_format_selection.2.2 "2017" (by decide)).1 (by decide),
   (C5_date_format_selection.2.2 "2017-10" (by decide)).2.1 (by decide),
   (C5_date_format_selection.2.2 "2017-10-03" (by decide)).2.2 (by decide)⟩

/-- Applying the `_set_attrs` write loop and reading back a listed attribute
gives the payload's value under `data.get` (which is `None` for an absent or
null field); an unlisted attribute is untouched. -/
theorem set_attrs_foldl_apply (data : JDict) (attrs : List String) (m : PyObj) (a : String) :
    (attrs.foldl
      (fun m attr =>
        if (pyGet data attr).isNull = false then setattr m attr (pyGet data attr)
        else setattr m attr Json.null) m) a
      = if a ∈ attrs then some (pyGet data a) else m a := by
  induction attrs generalizing m with
  | nil => simp
  | cons k ks ih =>
    rw [List.foldl_cons, ih]
    by_cases hks : a ∈ ks
    · simp [hks, List.mem_cons]
    · by_cases hk : a = k
      · subst hk
        by_cases hn : (pyGet data a).isNull = false
        · simp [hks, hn, setattr]
        · have hnull : pyGet data a = Json.null := by
            cases hval : pyGet data a <;> simp [hval, Json.isNull] at hn ⊢
          simp [hks, hn, setattr, hnull]
      · have : ¬ a ∈ k :: ks := by simp [List.mem_cons, hk, hks]
        by_cases hn : (pyGet data k).isNull = false <;>
          simp [this, hks, hn, setattr, hk]

/-- C4, counterexample: on the EMPTY payload, `_set_attrs` does not write the
listed attribute at all — the `if data:` guard skips the loop — so a stale
previous value survives instead of being overwritten with the absent marker
(`data.get("x")`, i.e. `None`). -/
theorem C4_counterexample_empty_payload :
    set_attrs staleModel [] ["x"] "x" = some (Json.str "stale") ∧
    set_attrs staleModel [] ["x"] "x" ≠ some (pyGet [] "x") := by
  constructor
  · rfl
  · intro h
    simp [set_attrs, staleModel, pyGet, jLookup] at h

/-- C4, amended: for every NON-EMPTY payload the field-copy operation writes a
value to every listed field — the payload's value when present and non-null
and the absent marker (`None`) otherwise, never leaving the field unset or
stale; on the empty payload it writes nothing and returns the model
unchanged. -/
theorem C4_set_attrs_writes_all_listed (m : PyObj) (data : JDict) (attrs : List String) :
    (data ≠ [] → ∀ a ∈ attrs, set_attrs m data attrs a = some (pyGet data a)) ∧
    (data = [] → set_attrs m data attrs = m) := by
  constructor
  · intro hne a ha
    have hE : data.isEmpty = false := by
      cases data
      · exact absurd rfl hne
      · rfl
    simp [set_attrs, hE, set_attrs_foldl_apply, ha]
  · intro h
    subst h
    rfl

/-- Witness for the amended C4: a present field is copied, and the empty
payload leaves the model untouched. -/
theorem C4_set_attrs_writes_all_listed_witness :
    set_attrs (fun _ => none) [("x", Json.int 7)] ["x", "y"] "x" = some (Json.int 7) ∧
    set_attrs (fun _ => none) [] ["x"] = (fun _ => none) :=
  ⟨(C4_set_attrs_writes_all_listed (fun _ => none) [("x", Json.int 7)] ["x", "y"]).1
      (List.cons_ne_nil _ _) "x" (List.Mem.head _),
   (C4_set_attrs_writes_all_listed (fun _ => none) [] ["x"]).2 rfl⟩

/-- C7: a media payload missing a collection field maps it to an empty
sequence (not an absent marker) — `data.get(field, [])` defaults the missing
list and the element-wise conversion of the default is empty — and a page
payload with no top-level `data` list maps to an empty sequence of entities
under the list-wrapping entry points. -/
theorem C7_absent_collections_map_to_empty (d : JDict) :
    (jLookup d "genres" = none →
      (deserialize_anime d).genres = [] ∧ (deserialize_manga d).genres = []) ∧
    (jLookup d "studios" = none → (deserialize_anime d).studios = []) ∧
    (jLookup d "pictures" = none →
      (deserialize_anime d).pictures = [] ∧ (deserialize_manga d).pictures = []) ∧
    (jLookup d "related_anime" = none → (deserialize_anime d).related_anime = []) ∧
    (jLookup d "related_manga" = none → (deserialize_manga d).related_manga = []) ∧
    (jLookup d "recommendations" = none →
      (deserialize_anime d).recommendations = [] ∧
        (deserialize_manga d).recommendations = []) ∧
    (jLookup d "data" = none →
      deserialize_anime_results d = [] ∧ deserialize_manga_results d = []) := by
  refine ⟨fun h => ⟨?_, ?_⟩, fun h => ?_, fun h => ⟨?_, ?_⟩, fun h => ?_, fun h => ?_,
    fun h => ⟨?_, ?_⟩, fun h => ⟨?_, ?_⟩⟩ <;>
    simp [deserialize_anime, deserialize_manga, deserialize_anime_results,
      deserialize_manga_results, pyGetD_of_absent _ _ _ h, Json.pyIter,
      deserialize_genres, deserialize_studios, deserialize_pictures,
      deserialize_related_material, deserialize_recommendations]

/-- Witness for C7 at the empty payload, where every key is missing. -/
theorem C7_absent_collections_map_to_empty_witness :
    (deserialize_anime []).genres = [] ∧ (deserialize_manga []).genres = [] ∧
    (deserialize_anime []).studios = [] ∧ (deserialize_anime []).pictures = [] ∧
    (deserialize_anime []).related_anime = [] ∧ (deserialize_manga []).related_manga = [] ∧
    (deserialize_anime []).recommendations = [] ∧
    deserialize_anime_results [] = [] ∧ deserialize_manga_results [] = [] :=
  ⟨((C7_absent_collections_map_to_empty []).1 rfl).1,
   ((C7_absent_collections_map_to_empty []).1 rfl).2,
   (C7_absent_collections_map_to_empty []).2.1 rfl,
   ((C7_absent_collections_map_to_empty []).2.2.1 rfl).1,
   (C7_absent_collections_map_to_empty []).2.2.2.1 rfl,
   (C7_absent_collections_map_to_empty []).2.2.2.2.1 rfl,
   ((C7_absent_collections_map_to_empty []).2.2.2.2.2.1 rfl).1,
   ((C7_absent_collections_map_to_empty []).2.2.2.2.2.2 rfl).1,
   ((C7_absent_collections_map_to_empty []).2.2.2.2.2.2 rfl).2⟩

/-- C10: neither media mapper ever leaves `media_type` absent.  A missing
`media_type` key maps to the `Unknown` member in both mappers (for anime via
`try_from_str(None) or Unknown`, for manga via the `"unknown"` lookup
default), an unrecognized wire value maps to `Unknown` via the `or` fallback,
while `status` — which has no such fallback — becomes absent in the same
situations. -/
theorem C10_media_type_never_absent (d : JDict) :
    (jLookup d "media_type" = none →
      (deserialize_anime d).media_type = "Unknown" ∧
        (deserialize_manga d).media_type = "Unknown") ∧
    (∀ v, jLookup d "media_type" = some v →
      (∀ m ∈ AnimeType.members, pyEq m.snd v = false) →
      (deserialize_anime d).media_type = "Unknown") ∧
    (∀ v, jLookup d "media_type" = some v →
      (∀ m ∈ MangaType.members, pyEq m.snd v = false) →
      (deserialize_manga d).media_type = "Unknown") ∧
    (jLookup d "status" = none →
      (deserialize_anime d).status = none ∧ (deserialize_manga d).status = none) := by
  refine ⟨fun h => ⟨?_, ?_⟩, fun v hv hout => ?_, fun v hv hout => ?_,
    fun h => ⟨?_, ?_⟩⟩
  · simp [deserialize_anime, pyGet_of_absent _ _ h]
    rfl
  · simp [deserialize_manga, pyGetD_of_absent _ _ _ h]
    rfl
  · have hg : pyGet d "media_type" = v := pyGet_of_present _ _ _ hv
    have hd : pyGetD d "media_type" (Json.str "unknown") = v := by simp [pyGetD, hv]
    simp [deserialize_anime, hg, try_from_str_of_unknown AnimeType v hout]
  · have hd : pyGetD d "media_type" (Json.str "unknown") = v := by simp [pyGetD, hv]
    simp [deserialize_manga, hd, try_from_str_of_unknown MangaType v hout]
  · simp [deserialize_anime, pyGet_of_absent _ _ h]
    rfl
  · simp [deserialize_manga, pyGet_of_absent _ _ h]
    rfl

/-- Witness for C10: the empty payload (both keys missing) and a payload with
the unrecognized wire value `"zzz"`. -/
theorem C10_media_type_never_absent_witness :
    (deserialize_anime []).media_type = "Unknown" ∧
    (deserialize_manga []).media_type = "Unknown" ∧
    (deserialize_anime [("media_type", Json.str "zzz")]).media_type = "Unknown" ∧
    (deserialize_manga [("media_type", Json.str "zzz")]).media_type = "Unknown" ∧
    (deserialize_anime []).status = none ∧ (deserialize_manga []).status = none :=
  ⟨((C10_media_type_never_absent []).1 rfl).1,
   ((C10_media_type_never_absent []).1 rfl).2,
   (C10_media_type_never_absent [("media_type", Json.str "zzz")]).2.1
     (Json.str "zzz") rfl (by decide),
   (C10_media_type_never_absent [("media_type", Json.str "zzz")]).2.2.1
     (Json.str "zzz") rfl (by decide),
   ((C10_media_type_never_absent []).2.2.2 rfl).1,
   ((C10_media_type_never_absent []).2.2.2 rfl).2⟩

/-- C3, at the failing input: mapping the minimal payload leaves every
declared-optional scalar explicitly absent (written with `None`, or parsed to
`None` for `end_date`) as the claim says, but `num_episodes` and
`average_episode_duration` are ALSO written with `None` — `_set_attrs` writes
`None` for any listed-but-missing field — not the `0` the claim (and the
`Anime` model's own docstrings) promise. -/
theorem C3_minimal_payload_episode_fields_none :
    (deserialize_anime minimalAnimePayload).scalars "num_episodes" = some Json.null ∧
    (deserialize_anime minimalAnimePayload).scalars "average_episode_duration"
      = some Json.null ∧
    (deserialize_anime minimalAnimePayload).scalars "mean" = some Json.null ∧
    (deserialize_anime minimalAnimePayload).scalars "rank" = some Json.null ∧
    (deserialize_anime minimalAnimePayload).scalars "num_list_users" = some Json.null ∧
    (deserialize_anime minimalAnimePayload).scalars "num_scoring_users" = some Json.null ∧
    (deserialize_anime minimalAnimePayload).scalars "background" = some Json.null ∧
    (deserialize_anime minimalAnimePayload).end_date = none ∧
    some Json.null ≠ some (Json.int 0) := by
  refine ⟨rfl, rfl, rfl, rfl, rfl, rfl, rfl, rfl, ?_⟩
  intro h
  injection h with h1
  exact Json.noConfusion h1

/-- Unpacking `parenFreeL` over a cons cell. -/
theorem parenFreeL_cons_iff (c : Char) (cs : List Char) :
    parenFreeL (c :: cs) = true ↔ (c ≠ '(' ∧ c ≠ ')') ∧ parenFreeL cs = true := by
  simp [parenFreeL, Bool.and_eq_true, bne_iff_ne, and_assoc]

/-- `parenFreeL` distributes over append. -/
theorem parenFreeL_append (p q : List Char) :
    parenFreeL (p ++ q) = (parenFreeL p && parenFreeL q) := by
  induction p with
  | nil => simp [parenFreeL]
  | cons c cs ih => simp [parenFreeL, ih, Bool.and_assoc]

/-- Replacement at the head placeholder. -/
theorem replacePH1_at_ph (repl X : List Char) :
    replacePH1 repl ('(' :: ')' :: X) = repl ++ X := by
  simp [replacePH1]

/-- First-occurrence replacement skips over a parenthesis-free prefix: no
occurrence can start inside it, nor straddle its boundary (that would need a
`'('` as its last character). -/
theorem replacePH1_append_of_parenFree (repl p t : List Char)
    (hp : parenFreeL p = true) :
    replacePH1 repl (p ++ t) = p ++ replacePH1 repl t := by
  induction p with
  | nil => simp
  | cons c cs ih =>
    obtain ⟨⟨hc1, _⟩, hcs⟩ := (parenFreeL_cons_iff c cs).mp hp
    show replacePH1 repl (c :: (cs ++ t)) = c :: (cs ++ replacePH1 repl t)
    cases hrest : cs ++ t with
    | nil =>
      obtain ⟨h1, h2⟩ : cs = [] ∧ t = [] := by
        cases cs <;> cases t <;> simp_all
      subst h1; subst h2; rfl
    | cons d ds =>
      show (if c = '(' ∧ d = ')' then repl ++ ds else c :: replacePH1 repl (d :: ds))
          = c :: (cs ++ replacePH1 repl t)
      rw [if_neg (fun hand => hc1 hand.1), ← hrest, ih hcs]

/-- Occurrence counting likewise ignores a parenthesis-free prefix. -/
theorem countPH_append_of_parenFree (p t : List Char) (hp : parenFreeL p = true) :
    countPH (p ++ t) = countPH t := by
  induction p with
  | nil => simp
  | cons c cs ih =>
    obtain ⟨⟨hc1, _⟩, hcs⟩ := (parenFreeL_cons_iff c cs).mp hp
    show countPH (c :: (cs ++ t)) = countPH t
    cases hrest : cs ++ t with
    | nil =>
      obtain ⟨h1, h2⟩ : cs = [] ∧ t = [] := by
        cases cs <;> cases t <;> simp_all
      subst h1; subst h2; rfl
    | cons d ds =>
      show (if c = '(' ∧ d = ')' then countPH ds + 1 else countPH (d :: ds)) = countPH t
      rw [if_neg (fun hand => hc1 hand.1), ← hrest, ih hcs]

/-- A parenthesis-free string contains no placeholder. -/
theorem countPH_of_parenFree (p : List Char) (hp : parenFreeL p = true) :
    countPH p = 0 := by
  have h := countPH_append_of_parenFree p [] hp
  simpa using h

/-- A well-formed template with n+1 segments contains exactly n placeholders
(the claim's N). -/
theorem countPH_interPH (segs : List (List Char))
    (hsegs : ∀ s ∈ segs, parenFreeL s = true) :
    countPH (interPH segs) = segs.length - 1 := by
  induction segs with
  | nil => rfl
  | cons s rest ih =>
    cases rest with
    | nil => simpa using countPH_of_parenFree s (hsegs s (List.Mem.head _))
    | cons s2 rest2 =>
      have hs : parenFreeL s = true := hsegs s (List.Mem.head _)
      have hrest : ∀ x ∈ s2 :: rest2, parenFreeL x = true :=
        fun x hx => hsegs x (List.Mem.tail _ hx)
      show countPH (s ++ '(' :: ')' :: interPH (s2 :: rest2)) = _
      rw [countPH_append_of_parenFree _ _ hs]
      show (if ('(' : Char) = '(' ∧ (')' : Char) = ')' then countPH (interPH (s2 :: rest2)) + 1
            else countPH (')' :: interPH (s2 :: rest2))) = _
      rw [if_pos ⟨rfl, rfl⟩, ih hrest]
      simp

/-- The whole substitution loop also skips over a parenthesis-free prefix. -/
theorem foldl_replace_append_of_parenFree (args : List RouteArg) (p : List Char) :
    ∀ X : List Char, parenFreeL p = true →
      args.foldl (fun l arg => replacePH1 arg.toStr.data l) (p ++ X)
        = p ++ args.foldl (fun l arg => replacePH1 arg.toStr.data l) X := by
  induction args with
  | nil => intro X _; rfl
  | cons a as ih =>
    intro X hp
    simp only [List.foldl_cons]
    rw [replacePH1_append_of_parenFree _ _ _ hp, ih _ hp]

/-- The `.data` view of the string-level substitution loop of
`Route.generate_route`. -/
theorem generate_route_uri_data (r : Route) (args : List RouteArg) :
    (r.generate_route args).uri.data
      = args.foldl (fun l arg => replacePH1 arg.toStr.data l) r.uri.data := by
  show (args.foldl (fun u arg => strReplacePH1 u arg.toStr) r.uri).data = _
  induction args generalizing r with
  | nil => rfl
  | cons a as ih =>
    simp only [List.foldl_cons]
    have h := ih { method := r.method, uri := strReplacePH1 r.uri a.toStr }
    exact h

/-- Substituting n parenthesis-free arguments into a well-formed template with
n placeholders interleaves segments and arguments, left to right. -/
theorem foldl_replace_interPH (args : List RouteArg) :
    ∀ segs : List (List Char),
      (∀ s ∈ segs, parenFreeL s = true) →
      (∀ a ∈ args, parenFreeL a.toStr.data = true) →
      segs.length = args.length + 1 →
      args.foldl (fun l arg => replacePH1 arg.toStr.data l) (interPH segs)
        = fillPH segs (args.map (fun a => a.toStr.data)) := by
  induction args with
  | nil =>
    intro segs hsegs _ hlen
    match segs, hlen with
    | [s], _ => rfl
  | cons a as ih =>
    intro segs hsegs hargs hlen
    match segs, hlen with
    | s :: s2 :: rest2, hlen =>
      have hs : parenFreeL s = true := hsegs s (List.Mem.head _)
      have ha : parenFreeL a.toStr.data = true := hargs a (List.Mem.head _)
      have hrest : ∀ x ∈ s2 :: rest2, parenFreeL x = true :=
        fun x hx => hsegs x (List.Mem.tail _ hx)
      have hargs' : ∀ x ∈ as, parenFreeL x.toStr.data = true :=
        fun x hx => hargs x (List.Mem.tail _ hx)
      have hlen' : (s2 :: rest2).length = as.length + 1 := by
        simpa using hlen
      show (a :: as).foldl (fun l arg => replacePH1 arg.toStr.data l)
          (s ++ '(' :: ')' :: interPH (s2 :: rest2)) = _
      rw [List.foldl_cons, replacePH1_append_of_parenFree _ _ _ hs,
        replacePH1_at_ph]
      have hsa : parenFreeL (s ++ a.toStr.data) = true := by
        rw [parenFreeL_append, hs, ha]; rfl
      calc as.foldl (fun l arg => replacePH1 arg.toStr.data l)
              (s ++ (a.toStr.data ++ interPH (s2 :: rest2)))
          = as.foldl (fun l arg => replacePH1 arg.toStr.data l)
              ((s ++ a.toStr.data) ++ interPH (s2 :: rest2)) := by
            rw [List.append_assoc]
        _ = (s ++ a.toStr.data)
              ++ as.foldl (fun l arg => replacePH1 arg.toStr.data l)
                  (interPH (s2 :: rest2)) :=
            foldl_replace_append_of_parenFree as _ _ hsa
        _ = (s ++ a.toStr.data) ++ fillPH (s2 :: rest2) (as.map (fun x => x.toStr.data)) := by
            rw [ih _ hrest hargs' hlen']
        _ = fillPH (s :: s2 :: rest2) ((a :: as).map (fun x => x.toStr.data)) := by
            simp [fillPH]

/-- The filled-in result of a well-formed substitution is parenthesis-free. -/
theorem fillPH_parenFree (argl : List (List Char)) :
    ∀ segs : List (List Char),
      (∀ s ∈ segs, parenFreeL s = true) →
      (∀ a ∈ argl, parenFreeL a = true) →
      segs.length = argl.length + 1 →
      parenFreeL (fillPH segs argl) = true := by
  induction argl with
  | nil =>
    intro segs hsegs _ hlen
    match segs, hlen with
    | [s], _ => exact hsegs s (List.Mem.head _)
  | cons a as ih =>
    intro segs hsegs hargs hlen
    match segs, hlen with
    | s :: s2 :: rest2, hlen =>
      have hlen' : (s2 :: rest2).length = as.length + 1 := by simpa using hlen
      show parenFreeL (s ++ a ++ fillPH (s2 :: rest2) as) = true
      rw [parenFreeL_append, parenFreeL_append,
        hsegs s (List.Mem.head _), hargs a (List.Mem.head _),
        ih _ (fun x hx => hsegs x (List.Mem.tail _ hx))
          (fun x hx => hargs x (List.Mem.tail _ hx)) hlen']
      rfl

/-- C9, counterexample: the round-trip fails as universally stated.  With the
one-placeholder template `"a()"` and the single argument `"()"`, the
substituted URI is `"a()"` again — one placeholder remains; and with the
template `"(())"` (one placeholder, between parentheses) and the single empty
argument, substitution manufactures a new placeholder: the URI becomes
`"()"`. -/
theorem C9_counterexample_remaining_placeholder :
    (Route.generate_route { method := "GET", uri := "a()" } [RouteArg.s "()"]).uri
      = "a()" ∧
    countPH (Route.generate_route { method := "GET", uri := "a()" }
      [RouteArg.s "()"]).uri.data ≠ 0 ∧
    (Route.generate_route { method := "GET", uri := "(())" } [RouteArg.s ""]).uri
      = "()" ∧
    countPH (Route.generate_route { method := "GET", uri := "(())" }
      [RouteArg.s ""]).uri.data ≠ 0 := by
  refine ⟨rfl, ?_, rfl, ?_⟩ <;> decide

/-- C9, amended: for a Route whose URI template is parenthesis-free segments
interleaved with N `()` placeholders, and exactly N positional arguments
whose stringifications contain no parenthesis characters, `generate_route`
yields a builder whose URI is the segments interleaved with the stringified
arguments (the i-th placeholder, counted left to right, replaced by the i-th
argument) and which contains zero remaining placeholders. -/
theorem C9_generate_route_fills_placeholders (m : String) (segs : List (List Char))
    (args : List RouteArg)
    (hsegs : ∀ s ∈ segs, parenFreeL s = true)
    (hargs : ∀ a ∈ args, parenFreeL a.toStr.data = true)
    (hlen : segs.length = args.length + 1) :
    countPH (String.mk (interPH segs)).data = args.length ∧
    (Route.generate_route { method := m, uri := String.mk (interPH segs) } args).uri
      = String.mk (fillPH segs (args.map (fun a => a.toStr.data))) ∧
    countPH (Route.generate_route { method := m, uri := String.mk (interPH segs) }
      args).uri.data = 0 := by
  have hdata : (Route.generate_route { method := m, uri := String.mk (interPH segs) }
      args).uri.data = fillPH segs (args.map (fun a => a.toStr.data)) := by
    rw [generate_route_uri_data]
    exact foldl_replace_interPH args segs hsegs hargs hlen
  have hmap : ∀ x ∈ args.map (fun a => a.toStr.data), parenFreeL x = true := by
    intro x hx
    obtain ⟨a, ha, rfl⟩ := List.mem_map.mp hx
    exact hargs a ha
  have hlen' : segs.length = (args.map (fun a => a.toStr.data)).length + 1 := by
    simpa using hlen
  refine ⟨?_, ?_, ?_⟩
  · show countPH (interPH segs) = args.length
    rw [countPH_interPH segs hsegs, hlen]
    simp
  · exact String.ext hdata
  · rw [hdata]
    exact countPH_of_parenFree _
      (fillPH_parenFree (args.map (fun a => a.toStr.data)) segs hsegs hmap hlen')

/-- Witness for the amended C9: the template `"a/()"` (segments `"a/"` and
`""`) with the single integer argument `5` substitutes to `"a/5"` with no
placeholder left. -/
theorem C9_generate_route_fills_placeholders_witness :
    countPH ("a/()" : String).data = 1 ∧
    (Route.generate_route { method := "GET", uri := "a/()" } [RouteArg.i 5]).uri = "a/5" ∧
    countPH (Route.generate_route { method := "GET", uri := "a/()" }
      [RouteArg.i 5]).uri.data = 0 :=
  C9_generate_route_fills_placeholders "GET" [['a', '/'], []] [RouteArg.i 5]
    (by decide) (by decide) (by decide)
